import Mathlib

/-!
Shallow embedding of the operation-dispatch framework in
`internal/operation` (registry.go, operation.go, operations.go, params.go,
services.go, bus.go) of the commandment repository.

Go `time.Time` values are modelled as natural-number ticks (`GoTime`),
with `0` playing the role of the Go zero time (the unset value).  The
wall-clock rendering used by `encoding/json` (RFC3339) is modelled by an
injective, executable printer/parser pair on ticks; no claim inspects the
characters of a timestamp, only presence and round-tripping.

Go JSON values are modelled by the inductive `Json`; `encoding/json`
behaviour on the concrete structs of the package (field-tag names, the
ineffectiveness of `omitempty` on struct-typed fields such as `time.Time`,
unknown-field tolerance, zero values for absent fields, case-insensitive
field-name matching) is embedded by explicit encoder/decoder functions.

Go panics are distinguished from returned `error` values by the
`Outcome` type: `Outcome.err` is a returned error, `Outcome.panicked` is a
runtime panic escaping the function.
-/

namespace Commandment

/-- Go `time.Time` modelled as monotone-clock ticks; `0` is the Go zero time
(the unset value a fresh struct field holds). -/
abbrev GoTime := Nat

/-- Model of a Go JSON value (the image of `encoding/json`). -/
inductive Json where
  | str (s : String)
  | num (n : Int)
  | bool (b : Bool)
  | null
  | arr (xs : List Json)
  | obj (fields : List (String × Json))

/-- OperationMetadata from operation.go:31-36.  In Go the two trailing
fields carry `omitempty` JSON options; see `encodeMetadata` for why those
options have no effect. -/
structure OperationMetadata where
  UUID : String
  Created : GoTime
  Executed : GoTime
  Returned : GoTime
deriving DecidableEq, Repr

/-- OperationDescriptor from operation.go:40-44.  The Go `Params` field has
type `interface\x7b\x7d`; it is modelled by its JSON image, which is what
`mustMarshal` produces from it on every use. -/
structure OperationDescriptor where
  «Type» : String
  Params : Json
  Metadata : OperationMetadata

/-- CreateListCommandParams from params.go:15-19 (`ParentID *int64` becomes
`Option Int`). -/
structure CreateListCommandParams where
  Title : String
  Description : String
  ParentID : Option Int
deriving DecidableEq, Repr

/-- DisplayNodeTreeCommandParams from params.go:4-7. -/
structure DisplayNodeTreeCommandParams where
  RootReference : String
  MaxDepth : Int
deriving DecidableEq, Repr

/-- ShowNodeQueryParams from params.go:27-29. -/
structure ShowNodeQueryParams where
  Ref : Int
deriving DecidableEq, Repr

/-- Node from params.go:32-37. -/
structure Node where
  ID : Int
  Title : String
  Description : String
deriving DecidableEq, Repr

/-- TreeStats from params.go:39-42. -/
structure TreeStats where
  TotalNodes : Int
  MaxDepth : Int
deriving DecidableEq, Repr

/-- NodeTree from params.go:9-12. -/
structure NodeTree where
  Nodes : List Node
  Stats : TreeStats
deriving DecidableEq, Repr

/-- ValidationError from params.go:44-47. -/
structure ValidationError where
  Field : String
  Message : String
deriving DecidableEq, Repr

/-- NodeCommandResult from params.go:21-24. -/
structure NodeCommandResult where
  Node : Node
  Errors : List ValidationError
deriving DecidableEq, Repr

/-! ### Timestamp wire codec

Models the RFC3339 string rendering `encoding/json` applies to
`time.Time`.  The model prints the tick count in decimal (low digit
first); what matters to the claims is that the printer is injective and
the parser is its exact left inverse, mirroring RFC3339 round-tripping
the represented instant. -/

/-- Decimal digits of `n`, low digit first; the first argument is
structural fuel (any bound of at least `n` is enough). -/
def digitsAux : Nat → Nat → List Nat
  | 0, _ => []
  | fuel + 1, n => if n = 0 then [] else n % 10 :: digitsAux fuel (n / 10)

/-- Recombine a low-digit-first digit list. -/
def ofDigitsM : List Nat → Nat
  | [] => 0
  | d :: ds => d + 10 * ofDigitsM ds

/-- Model of the RFC3339 rendering of a timestamp. -/
def rfc3339 (t : GoTime) : String :=
  String.mk ((digitsAux t t).map Nat.digitChar)

/-- Model of RFC3339 parsing: left inverse of `rfc3339`. -/
def rfc3339Parse (s : String) : Option GoTime :=
  if s.data.all (fun c => c.isDigit) then
    some (ofDigitsM (s.data.map (fun c => c.toNat - 48)))
  else
    none

/-! ### generateUUID (operation.go:114-122)

`crypto/rand.Read` fills 16 bytes; the byte source is an oracle argument.
`hex.EncodeToString` emits two lowercase hex digits per byte, high nibble
first. -/

/-- One hex digit (0-15) to its lowercase character, as `encoding/hex`. -/
def hexDigitChar (n : Nat) : Char :=
  if n < 10 then Char.ofNat (48 + n) else Char.ofNat (87 + n)

/-- `hex.EncodeToString`: two digits per byte, high nibble first. -/
def hexEncode (bytes : List Nat) : List Char :=
  bytes.foldr (fun b acc => hexDigitChar (b / 16 % 16) :: hexDigitChar (b % 16) :: acc) []

/-- generateUUID from operation.go:114-122, with the 16 random bytes
drawn from `crypto/rand` passed as an oracle. -/
def generateUUID (randomBytes : List Nat) : String :=
  String.mk (hexEncode randomBytes)

/-! ### JSON encoders

Encoders model `encoding/json.Marshal` applied to the structs of the package.
The params structs carry no JSON tags, so the Go field names become the
object keys; `*int64` marshals to `null` when nil. -/

/-- JSON image of a timestamp (Go `time.Time.MarshalJSON`): a string. -/
def jsonTime (t : GoTime) : Json :=
  Json.str (rfc3339 t)

/-- Marshal of OperationMetadata.  The `omitempty` options on `Executed`
and `Returned` (operation.go:34-35) have no effect: `encoding/json`
treats only empty basic values, maps, slices and pointers as empty, never
struct types such as `time.Time`, so all four keys are always emitted and
an unset timestamp appears as the zero time. -/
def encodeMetadata (m : OperationMetadata) : List (String × Json) :=
  [("uuid", Json.str m.UUID),
   ("created", jsonTime m.Created),
   ("executed", jsonTime m.Executed),
   ("returned", jsonTime m.Returned)]

/-- Marshal of CreateListCommandParams. -/
def encodeCreateListCommandParams (p : CreateListCommandParams) : Json :=
  Json.obj
    [("Title", Json.str p.Title),
     ("Description", Json.str p.Description),
     ("ParentID", match p.ParentID with
       | none => Json.null
       | some n => Json.num n)]

/-- Marshal of DisplayNodeTreeCommandParams. -/
def encodeDisplayNodeTreeCommandParams (p : DisplayNodeTreeCommandParams) : Json :=
  Json.obj
    [("RootReference", Json.str p.RootReference),
     ("MaxDepth", Json.num p.MaxDepth)]

/-- Marshal of ShowNodeQueryParams. -/
def encodeShowNodeQueryParams (p : ShowNodeQueryParams) : Json :=
  Json.obj [("Ref", Json.num p.Ref)]

/-- MarshalJSON of OperationDescriptor (operation.go:47-56): the alias
trick emits the three struct fields under their tags, with `Params`
replaced by its own marshalled form (already a `Json` here, so
`mustMarshal` is the identity). -/
def encodeDescriptor (d : OperationDescriptor) : Json :=
  Json.obj
    [("type", Json.str d.«Type»),
     ("params", d.Params),
     ("metadata", Json.obj (encodeMetadata d.Metadata))]

/-! ### JSON decoders

Decoders model `encoding/json.Unmarshal` into the structs of the package:
the target starts at its zero value; object keys are matched against
field names case-insensitively (no tags beyond the metadata ones);
unknown keys are skipped; a JSON null on a non-pointer field is ignored
with no effect and no error (for `*int64` it stores nil, and
`time.Time.UnmarshalJSON` explicitly returns nil on null); any other
value that cannot be stored in the matched field records an
`UnmarshalTypeError`, and decoding continues with the remaining keys,
returning the first recorded error at the end. -/

/-- Keep the first recorded error, as the `saveError` mechanism of `encoding/json`. -/
def firstErr (a b : Option String) : Option String :=
  match a with
  | some e => some e
  | none => b

/-- ASCII lower-casing of one character, as the case fold of `encoding/json`
behaves on the ASCII field names of this package. -/
def lowerChar (c : Char) : Char :=
  if 65 ≤ c.toNat ∧ c.toNat ≤ 90 then Char.ofNat (c.toNat + 32) else c

/-- Case fold of a key for the case-insensitive Go field-name matching. -/
def lowerStr (s : String) : String :=
  String.mk (s.data.map lowerChar)

/-- Outcome of storing a JSON value into a string field: the new value
if one is stored, and the recorded type error if any; null is ignored
with no effect and no error. -/
def decodeStringValue (fieldName : String) (v : Json) : Option String × Option String :=
  match v with
  | Json.str s => (some s, none)
  | Json.null => (none, none)
  | _ =>
    (none, some ("cannot unmarshal value into field " ++ fieldName ++ " of type string"))

/-- Outcome of storing a JSON value into an integer field (`tyName` is
the Go type in the error message); null is ignored with no effect and no
error. -/
def decodeIntValue (fieldName tyName : String) (v : Json) : Option Int × Option String :=
  match v with
  | Json.num n => (some n, none)
  | Json.null => (none, none)
  | _ =>
    (none, some ("cannot unmarshal value into field " ++ fieldName ++ " of type " ++ tyName))

/-- Outcome of storing a JSON value into a `*int64` field: null stores
nil (the pointer case of the null rule), a number allocates and stores,
anything else is a type error. -/
def decodePtrIntValue (fieldName : String) (v : Json) :
    Option (Option Int) × Option String :=
  match v with
  | Json.null => (some none, none)
  | Json.num n => (some (some n), none)
  | _ =>
    (none, some ("cannot unmarshal value into field " ++ fieldName ++ " of type *int64"))

/-- Store one object key into CreateListCommandParams; second component
is the type error recorded, if any. -/
def setCreateListField (p : CreateListCommandParams) (k : String) (v : Json) :
    CreateListCommandParams × Option String :=
  if lowerStr k = "title" then
    match decodeStringValue "Title" v with
    | (some s, e) => ({ p with Title := s }, e)
    | (none, e) => (p, e)
  else if lowerStr k = "description" then
    match decodeStringValue "Description" v with
    | (some s, e) => ({ p with Description := s }, e)
    | (none, e) => (p, e)
  else if lowerStr k = "parentid" then
    match decodePtrIntValue "ParentID" v with
    | (some pid, e) => ({ p with ParentID := pid }, e)
    | (none, e) => (p, e)
  else
    (p, none)

/-- Whether a key names a declared field of CreateListCommandParams
(under the case-insensitive Go matching). -/
def createListFieldKnown (k : String) : Bool :=
  if lowerStr k = "title" then true
  else if lowerStr k = "description" then true
  else if lowerStr k = "parentid" then true
  else false

/-- Whether a JSON value can be stored in a string field (null is the
no-op case, never an error). -/
def stringValueCompat (v : Json) : Bool :=
  match v with
  | Json.str _ => true
  | Json.null => true
  | _ => false

/-- Whether a JSON value can be stored in an integer or `*int64` field
(null is accepted: a no-op for the plain integer, nil for the pointer). -/
def intValueCompat (v : Json) : Bool :=
  match v with
  | Json.num _ => true
  | Json.null => true
  | _ => false

/-- Whether a key/value pair is storable: either the key is unknown, or
its value fits the declared field type. -/
def createListFieldCompat (k : String) (v : Json) : Bool :=
  if lowerStr k = "title" then stringValueCompat v
  else if lowerStr k = "description" then stringValueCompat v
  else if lowerStr k = "parentid" then intValueCompat v
  else true

/-- One decoding step over the key list. -/
def clcStep (acc : CreateListCommandParams × Option String) (kv : String × Json) :
    CreateListCommandParams × Option String :=
  let st := setCreateListField acc.1 kv.1 kv.2
  (st.1, firstErr acc.2 st.2)

/-- Decode an object body into CreateListCommandParams. -/
def decodeCreateListFields (fs : List (String × Json)) :
    Except String CreateListCommandParams :=
  let r := fs.foldl clcStep ({ Title := "", Description := "", ParentID := none }, none)
  match r.2 with
  | some e => Except.error e
  | none => Except.ok r.1

/-- Unmarshal into CreateListCommandParams: objects decode field-wise,
`null` is a no-op leaving the zero value, anything else is a type error. -/
def unmarshalCreateListCommandParams (j : Json) : Except String CreateListCommandParams :=
  match j with
  | Json.obj fs => decodeCreateListFields fs
  | Json.null => Except.ok { Title := "", Description := "", ParentID := none }
  | _ => Except.error "cannot unmarshal value into CreateListCommandParams"

/-- Store one object key into DisplayNodeTreeCommandParams. -/
def setDisplayNodeTreeField (p : DisplayNodeTreeCommandParams) (k : String) (v : Json) :
    DisplayNodeTreeCommandParams × Option String :=
  if lowerStr k = "rootreference" then
    match decodeStringValue "RootReference" v with
    | (some s, e) => ({ p with RootReference := s }, e)
    | (none, e) => (p, e)
  else if lowerStr k = "maxdepth" then
    match decodeIntValue "MaxDepth" "int" v with
    | (some n, e) => ({ p with MaxDepth := n }, e)
    | (none, e) => (p, e)
  else
    (p, none)

/-- Whether a key names a declared field of DisplayNodeTreeCommandParams
(under the case-insensitive Go matching). -/
def displayFieldKnown (k : String) : Bool :=
  if lowerStr k = "rootreference" then true
  else if lowerStr k = "maxdepth" then true
  else false

/-- Whether a key/value pair is storable into
DisplayNodeTreeCommandParams: either the key is unknown, or its value
fits the declared field type (null is always accepted). -/
def displayFieldCompat (k : String) (v : Json) : Bool :=
  if lowerStr k = "rootreference" then stringValueCompat v
  else if lowerStr k = "maxdepth" then intValueCompat v
  else true

/-- One decoding step over the key list. -/
def dntStep (acc : DisplayNodeTreeCommandParams × Option String) (kv : String × Json) :
    DisplayNodeTreeCommandParams × Option String :=
  let st := setDisplayNodeTreeField acc.1 kv.1 kv.2
  (st.1, firstErr acc.2 st.2)

/-- Decode an object body into DisplayNodeTreeCommandParams. -/
def decodeDisplayNodeTreeFields (fs : List (String × Json)) :
    Except String DisplayNodeTreeCommandParams :=
  let r := fs.foldl dntStep ({ RootReference := "", MaxDepth := 0 }, none)
  match r.2 with
  | some e => Except.error e
  | none => Except.ok r.1

/-- Unmarshal into DisplayNodeTreeCommandParams. -/
def unmarshalDisplayNodeTreeCommandParams (j : Json) :
    Except String DisplayNodeTreeCommandParams :=
  match j with
  | Json.obj fs => decodeDisplayNodeTreeFields fs
  | Json.null => Except.ok { RootReference := "", MaxDepth := 0 }
  | _ => Except.error "cannot unmarshal value into DisplayNodeTreeCommandParams"

/-- Store one object key into ShowNodeQueryParams. -/
def setShowNodeField (p : ShowNodeQueryParams) (k : String) (v : Json) :
    ShowNodeQueryParams × Option String :=
  if lowerStr k = "ref" then
    match decodeIntValue "Ref" "int64" v with
    | (some n, e) => ({ p with Ref := n }, e)
    | (none, e) => (p, e)
  else
    (p, none)

/-- Whether a key names the declared field of ShowNodeQueryParams
(under the case-insensitive Go matching). -/
def showNodeFieldKnown (k : String) : Bool :=
  if lowerStr k = "ref" then true
  else false

/-- Whether a key/value pair is storable into ShowNodeQueryParams:
either the key is unknown, or its value fits the declared field type
(null is always accepted). -/
def showNodeFieldCompat (k : String) (v : Json) : Bool :=
  if lowerStr k = "ref" then intValueCompat v
  else true

/-- One decoding step over the key list. -/
def snqStep (acc : ShowNodeQueryParams × Option String) (kv : String × Json) :
    ShowNodeQueryParams × Option String :=
  let st := setShowNodeField acc.1 kv.1 kv.2
  (st.1, firstErr acc.2 st.2)

/-- Decode an object body into ShowNodeQueryParams. -/
def decodeShowNodeFields (fs : List (String × Json)) :
    Except String ShowNodeQueryParams :=
  let r := fs.foldl snqStep ({ Ref := 0 }, none)
  match r.2 with
  | some e => Except.error e
  | none => Except.ok r.1

/-- Unmarshal into ShowNodeQueryParams. -/
def unmarshalShowNodeQueryParams (j : Json) : Except String ShowNodeQueryParams :=
  match j with
  | Json.obj fs => decodeShowNodeFields fs
  | Json.null => Except.ok { Ref := 0 }
  | _ => Except.error "cannot unmarshal value into ShowNodeQueryParams"

/-- Outcome of `time.Time.UnmarshalJSON` applied to a parsed timestamp
string: the new value or the error. -/
def parseTimeField (fieldName : String) (s : String) : Option GoTime × Option String :=
  match rfc3339Parse s with
  | some t => (some t, none)
  | none =>
    (none, some ("cannot unmarshal value into field " ++ fieldName ++ " of type time.Time"))

/-- Outcome of storing a JSON value into a `time.Time` field: null is a
no-op with no error (`time.Time.UnmarshalJSON` returns nil on null), a
string is parsed, anything else is a type error. -/
def decodeTimeValue (fieldName : String) (v : Json) : Option GoTime × Option String :=
  match v with
  | Json.null => (none, none)
  | Json.str s => parseTimeField fieldName s
  | _ =>
    (none, some ("cannot unmarshal value into field " ++ fieldName ++ " of type time.Time"))

/-- Store one object key into OperationMetadata (tags uuid, created,
executed, returned from operation.go:31-36). -/
def setMetadataField (m : OperationMetadata) (k : String) (v : Json) :
    OperationMetadata × Option String :=
  if lowerStr k = "uuid" then
    match decodeStringValue "UUID" v with
    | (some s, e) => ({ m with UUID := s }, e)
    | (none, e) => (m, e)
  else if lowerStr k = "created" then
    match decodeTimeValue "Created" v with
    | (some t, e) => ({ m with Created := t }, e)
    | (none, e) => (m, e)
  else if lowerStr k = "executed" then
    match decodeTimeValue "Executed" v with
    | (some t, e) => ({ m with Executed := t }, e)
    | (none, e) => (m, e)
  else if lowerStr k = "returned" then
    match decodeTimeValue "Returned" v with
    | (some t, e) => ({ m with Returned := t }, e)
    | (none, e) => (m, e)
  else
    (m, none)

/-- One decoding step over the key list. -/
def metaStep (acc : OperationMetadata × Option String) (kv : String × Json) :
    OperationMetadata × Option String :=
  let st := setMetadataField acc.1 kv.1 kv.2
  (st.1, firstErr acc.2 st.2)

/-- Decode an object body into OperationMetadata. -/
def decodeMetadataFields (fs : List (String × Json)) :
    Except String OperationMetadata :=
  let r := fs.foldl metaStep ({ UUID := "", Created := 0, Executed := 0, Returned := 0 }, none)
  match r.2 with
  | some e => Except.error e
  | none => Except.ok r.1

/-- Unmarshal into OperationMetadata. -/
def unmarshalMetadata (j : Json) : Except String OperationMetadata :=
  match j with
  | Json.obj fs => decodeMetadataFields fs
  | Json.null => Except.ok { UUID := "", Created := 0, Executed := 0, Returned := 0 }
  | _ => Except.error "cannot unmarshal value into OperationMetadata"

/-- Outcome of the results field of a metadata decode: the struct
decoded from an object, a no-op on null, and a type error otherwise. -/
def decodeMetadataValue (v : Json) : Option OperationMetadata × Option String :=
  match v with
  | Json.null => (none, none)
  | Json.obj fs =>
    (match decodeMetadataFields fs with
     | Except.ok m => (some m, none)
     | Except.error e => (none, some e))
  | _ => (none, some "cannot unmarshal value into OperationMetadata")

/-- Store one object key into OperationDescriptor (tags type, params,
metadata from operation.go:40-44; `Params` is `interface\x7b\x7d`, so it
receives any JSON value verbatim). -/
def setDescriptorField (d : OperationDescriptor) (k : String) (v : Json) :
    OperationDescriptor × Option String :=
  if lowerStr k = "type" then
    match decodeStringValue "Type" v with
    | (some s, e) => ({ d with «Type» := s }, e)
    | (none, e) => (d, e)
  else if lowerStr k = "params" then
    ({ d with Params := v }, none)
  else if lowerStr k = "metadata" then
    match decodeMetadataValue v with
    | (some m, e) => ({ d with Metadata := m }, e)
    | (none, e) => (d, e)
  else
    (d, none)

/-- One decoding step over the key list. -/
def descStep (acc : OperationDescriptor × Option String) (kv : String × Json) :
    OperationDescriptor × Option String :=
  let st := setDescriptorField acc.1 kv.1 kv.2
  (st.1, firstErr acc.2 st.2)

/-- Zero value of OperationDescriptor (`Params` is a nil
`interface\x7b\x7d`, which re-marshals as `null`). -/
def zeroDescriptor : OperationDescriptor :=
  { «Type» := "", Params := Json.null,
    Metadata := { UUID := "", Created := 0, Executed := 0, Returned := 0 } }

/-- Unmarshal into OperationDescriptor. -/
def unmarshalDescriptor (j : Json) : Except String OperationDescriptor :=
  match j with
  | Json.obj fs =>
    let r := fs.foldl descStep (zeroDescriptor, none)
    match r.2 with
    | some e => Except.error e
    | none => Except.ok r.1
  | Json.null => Except.ok zeroDescriptor
  | _ => Except.error "cannot unmarshal value into OperationDescriptor"

/-! ### Outcomes

A Go call site can observe a returned value, a returned non-nil `error`,
or a panic unwinding through it; the three are distinguished here. -/

/-- Result of running a Go function: normal value, returned error value,
or a panic escaping the call. -/
inductive Outcome (α : Type) where
  | ok (a : α)
  | err (e : String)
  | panicked (msg : String)

/-! ### Service contracts and registry (services.go, registry.go)

Registry keys are `reflect.Type` values.  The types that can arise as
keys in this package are the three service contracts — plus the nil
`reflect.Type`, which `getRequiredServiceType` produces when the
operation struct has no `Service` field (bus.go:97 discards the
`FieldByName` ok flag, leaving the zero `StructField` whose `Type` is
nil).  `RegisterService` derives its key from a real type parameter, so a
registry never holds the nil key. -/

/-- The `reflect.Type` values relevant to this package. -/
inductive ServiceType where
  | treeService
  | listService
  | nodeService
  | nilType
deriving DecidableEq, Repr

/-- Rendering of a `reflect.Type` by `fmt` (`%v`), as used in the panic
message of registry.go:27; a nil `reflect.Type` prints as `<nil>`. -/
def ServiceType.goName : ServiceType → String
  | ServiceType.treeService => "operation.TreeService"
  | ServiceType.listService => "operation.ListService"
  | ServiceType.nodeService => "operation.NodeService"
  | ServiceType.nilType => "<nil>"

/-- TreeService (services.go:6-8): state-passing model of an arbitrary
implementation; `σ` is the world the service may read and write, and the
`Option String` is the returned Go error. -/
def TreeServiceM (σ : Type) : Type :=
  σ → DisplayNodeTreeCommandParams → σ × NodeTree × Option String

/-- ListService (services.go:10-12). -/
def ListServiceM (σ : Type) : Type :=
  σ → CreateListCommandParams → σ × NodeCommandResult × Option String

/-- NodeService (services.go:14-16). -/
def NodeServiceM (σ : Type) : Type :=
  σ → ShowNodeQueryParams → σ × Node × Option String

/-- A value stored in the registry map (`interface\x7b\x7d` in Go): one
of the three service implementations, tagged with its dynamic type. -/
inductive ServiceVal (σ : Type) where
  | tree (s : TreeServiceM σ)
  | list (s : ListServiceM σ)
  | node (s : NodeServiceM σ)

/-- ServiceRegistry (registry.go:8-10): the map from `reflect.Type` to
registered instance. -/
structure ServiceRegistry (ν : Type) where
  services : ServiceType → Option ν

/-- NewServiceRegistry (registry.go:13-17). -/
def NewServiceRegistry {ν : Type} : ServiceRegistry ν :=
  { services := fun _ => none }

/-- register (registry.go:20-22): plain map store, overwriting any prior
entry for the key. -/
def ServiceRegistry.register {ν : Type} (r : ServiceRegistry ν)
    (serviceType : ServiceType) (service : ν) : ServiceRegistry ν :=
  { services := fun k => if k = serviceType then some service else r.services k }

/-- get (registry.go:24-30): returns the stored instance, or panics when
the key is absent. -/
def ServiceRegistry.get {ν : Type} (r : ServiceRegistry ν)
    (serviceType : ServiceType) : Outcome ν :=
  match r.services serviceType with
  | some s => Outcome.ok s
  | none => Outcome.panicked ("Service type " ++ serviceType.goName ++ " not registered")

/-- GetService[ListService] (registry.go:38-47): get plus the type
assertion back to the contract, panicking on mismatch. -/
def GetListService {σ : Type} (r : ServiceRegistry (ServiceVal σ)) :
    Outcome (ListServiceM σ) :=
  match r.get ServiceType.listService with
  | Outcome.ok (ServiceVal.list s) => Outcome.ok s
  | Outcome.ok _ => Outcome.panicked "service type assertion failed"
  | Outcome.err e => Outcome.err e
  | Outcome.panicked msg => Outcome.panicked msg

/-- GetService[TreeService] (registry.go:38-47). -/
def GetTreeService {σ : Type} (r : ServiceRegistry (ServiceVal σ)) :
    Outcome (TreeServiceM σ) :=
  match r.get ServiceType.treeService with
  | Outcome.ok (ServiceVal.tree s) => Outcome.ok s
  | Outcome.ok _ => Outcome.panicked "service type assertion failed"
  | Outcome.err e => Outcome.err e
  | Outcome.panicked msg => Outcome.panicked msg

/-- GetService[NodeService] (registry.go:38-47). -/
def GetNodeService {σ : Type} (r : ServiceRegistry (ServiceVal σ)) :
    Outcome (NodeServiceM σ) :=
  match r.get ServiceType.nodeService with
  | Outcome.ok (ServiceVal.node s) => Outcome.ok s
  | Outcome.ok _ => Outcome.panicked "service type assertion failed"
  | Outcome.err e => Outcome.err e
  | Outcome.panicked msg => Outcome.panicked msg

/-! ### Concrete operations (operations.go) and the execution wrapper
(operation.go:74-106)

Each operation struct mirrors its Go declaration; `Λ` is the abstract
logger reference.  `executeOperationMeta` is `executeOperation`: it
touches only the metadata (through the `getMetadata` pointer) and the
business-logic closure; the `Info`/`Error` log calls are fire-and-forget
(`Logger` methods return nothing) and have no effect on any modelled
state.  The two `time.Now()` readings are the explicit arguments `tExec`
and `tRet`; the closure receives the metadata as stamped at call time
(in Go it can read it through the operation pointer) and the external
world `σ`, which it may change. -/

/-- executeOperation (operation.go:74-106) restricted to its observable
effects: stamp `Executed`, run the closure once, stamp `Returned`, and
return the closure result and error unchanged. -/
def executeOperationMeta {σ τ Λ : Type} (tExec tRet : GoTime)
    (meta : OperationMetadata) (_logger : Λ)
    (businessLogic : OperationMetadata → σ → σ × τ × Option String) (s : σ) :
    OperationMetadata × σ × τ × Option String :=
  let m1 := { meta with Executed := tExec }
  let out := businessLogic m1 s
  ({ m1 with Returned := tRet }, out)

/-- CreateListCommand (operations.go:64-69). -/
structure CreateListCommand (σ Λ : Type) where
  Params : CreateListCommandParams
  Service : ListServiceM σ
  OperationMeta : OperationMetadata
  Logger : Λ

/-- Execute for CreateListCommand (operations.go:71-75): delegates to the
wrapper with the closure `c.Service.CreateList(ctx, c.Params)`; the
wrapper mutates only the metadata through the struct pointer. -/
def CreateListCommand.Execute {σ Λ : Type} (c : CreateListCommand σ Λ)
    (tExec tRet : GoTime) (s : σ) :
    CreateListCommand σ Λ × σ × NodeCommandResult × Option String :=
  let r := executeOperationMeta tExec tRet c.OperationMeta c.Logger
    (fun _m s2 => c.Service s2 c.Params) s
  ({ c with OperationMeta := r.1 }, r.2)

/-- Descriptor for CreateListCommand (operations.go:81-87); `Params` is
stored as the value that `mustMarshal` renders from it. -/
def CreateListCommand.Descriptor {σ Λ : Type} (c : CreateListCommand σ Λ) :
    OperationDescriptor :=
  { «Type» := "CreateListCommand",
    Params := encodeCreateListCommandParams c.Params,
    Metadata := c.OperationMeta }

/-- DisplayNodeTreeCommand (operations.go:35-40). -/
structure DisplayNodeTreeCommand (σ Λ : Type) where
  Params : DisplayNodeTreeCommandParams
  Service : TreeServiceM σ
  OperationMeta : OperationMetadata
  Logger : Λ

/-- Execute for DisplayNodeTreeCommand (operations.go:42-46). -/
def DisplayNodeTreeCommand.Execute {σ Λ : Type} (c : DisplayNodeTreeCommand σ Λ)
    (tExec tRet : GoTime) (s : σ) :
    DisplayNodeTreeCommand σ Λ × σ × NodeTree × Option String :=
  let r := executeOperationMeta tExec tRet c.OperationMeta c.Logger
    (fun _m s2 => c.Service s2 c.Params) s
  ({ c with OperationMeta := r.1 }, r.2)

/-- Descriptor for DisplayNodeTreeCommand (operations.go:52-58). -/
def DisplayNodeTreeCommand.Descriptor {σ Λ : Type} (c : DisplayNodeTreeCommand σ Λ) :
    OperationDescriptor :=
  { «Type» := "DisplayNodeTreeCommand",
    Params := encodeDisplayNodeTreeCommandParams c.Params,
    Metadata := c.OperationMeta }

/-- ShowNodeQuery (operations.go:6-11). -/
structure ShowNodeQuery (σ Λ : Type) where
  Params : ShowNodeQueryParams
  Service : NodeServiceM σ
  OperationMeta : OperationMetadata
  Logger : Λ

/-- Execute for ShowNodeQuery (operations.go:13-17). -/
def ShowNodeQuery.Execute {σ Λ : Type} (q : ShowNodeQuery σ Λ)
    (tExec tRet : GoTime) (s : σ) :
    ShowNodeQuery σ Λ × σ × Node × Option String :=
  let r := executeOperationMeta tExec tRet q.OperationMeta q.Logger
    (fun _m s2 => q.Service s2 q.Params) s
  ({ q with OperationMeta := r.1 }, r.2)

/-- Descriptor for ShowNodeQuery (operations.go:23-29). -/
def ShowNodeQuery.Descriptor {σ Λ : Type} (q : ShowNodeQuery σ Λ) :
    OperationDescriptor :=
  { «Type» := "ShowNodeQuery",
    Params := encodeShowNodeQueryParams q.Params,
    Metadata := q.OperationMeta }

/-- The `interface\x7b\x7d` returned by CreateFromDescriptor: one of the
three concrete operation types. -/
inductive AnyOp (σ Λ : Type) where
  | displayNodeTree (c : DisplayNodeTreeCommand σ Λ)
  | createList (c : CreateListCommand σ Λ)
  | showNode (q : ShowNodeQuery σ Λ)

/-- Descriptor dispatch over the three concrete operation types. -/
def AnyOp.descriptor {σ Λ : Type} : AnyOp σ Λ → OperationDescriptor
  | AnyOp.displayNodeTree c => c.Descriptor
  | AnyOp.createList c => c.Descriptor
  | AnyOp.showNode q => q.Descriptor

/-! ### Operation factory (bus.go) -/

/-- OperationBus (bus.go:10-13). -/
structure OperationBus (σ Λ : Type) where
  registry : ServiceRegistry (ServiceVal σ)
  logger : Λ

/-- Structural shape of an operation struct, as far as
`getRequiredServiceType` (bus.go:90-99) inspects it: its name and the
declared type of its `Service` field.  `serviceField = none` models a
struct with no `Service` field — or with an ambiguous promoted one —
where `reflect.StructType.FieldByName` reports ok = false and the zero
`StructField` is used. -/
structure OpShape where
  name : String
  serviceField : Option ServiceType
deriving DecidableEq, Repr

/-- getRequiredServiceType (bus.go:90-99): the ok flag of `FieldByName`
is discarded, so a missing `Service` field yields the nil `reflect.Type`
(`serviceField.Type` on the zero `StructField`). -/
def getRequiredServiceType (sh : OpShape) : ServiceType :=
  match sh.serviceField with
  | some t => t
  | none => ServiceType.nilType

/-- CreateOperation (bus.go:53-87): resolve the service type from the
shape, fetch it from the registry (registry.go:24-30 panics when absent),
mint fresh metadata with a generated UUID and `Created = now`, and build
the instance via `newOperationWithService` (bus.go:102-132), which fills
the four fields `Params`, `Service`, `OperationMeta`, `Logger`.  A panic
in `registry.get` unwinds through this function: nothing recovers it. -/
def CreateOperation {σ π Λ : Type} (reg : ServiceRegistry (ServiceVal σ)) (logger : Λ)
    (sh : OpShape) (params : π) (randomBytes : List Nat) (now : GoTime) :
    Outcome (π × ServiceVal σ × OperationMetadata × Λ) :=
  match reg.get (getRequiredServiceType sh) with
  | Outcome.panicked msg => Outcome.panicked msg
  | Outcome.err e => Outcome.err e
  | Outcome.ok service =>
    Outcome.ok (params, service,
      { UUID := generateUUID randomBytes, Created := now, Executed := 0, Returned := 0 },
      logger)

/-- NewCreateListCommand (bus.go:48-50), the public entry point, as the
instantiation `CreateOperation[*CreateListCommand]`: the shape of the
CreateListCommand struct names `Service ListService` (operations.go:66),
so the resolved `reflect.Type` is the ListService contract; the reflect
`Set` of the `Service` field panics if the registered dynamic type does
not fit. -/
def NewCreateListCommand {σ Λ : Type} (reg : ServiceRegistry (ServiceVal σ)) (logger : Λ)
    (params : CreateListCommandParams) (randomBytes : List Nat) (now : GoTime) :
    Outcome (CreateListCommand σ Λ) :=
  match reg.get ServiceType.listService with
  | Outcome.panicked msg => Outcome.panicked msg
  | Outcome.err e => Outcome.err e
  | Outcome.ok (ServiceVal.list svc) =>
    Outcome.ok
      { Params := params, Service := svc,
        OperationMeta :=
          { UUID := generateUUID randomBytes, Created := now, Executed := 0, Returned := 0 },
        Logger := logger }
  | Outcome.ok _ => Outcome.panicked "reflect: Set using value of wrong type"

/-- NewDisplayNodeTreeCommand (bus.go:44-46), the public entry point, as
the instantiation `CreateOperation[*DisplayNodeTreeCommand]`: the struct
names `Service TreeService` (operations.go:37). -/
def NewDisplayNodeTreeCommand {σ Λ : Type} (reg : ServiceRegistry (ServiceVal σ))
    (logger : Λ) (params : DisplayNodeTreeCommandParams) (randomBytes : List Nat)
    (now : GoTime) : Outcome (DisplayNodeTreeCommand σ Λ) :=
  match reg.get ServiceType.treeService with
  | Outcome.panicked msg => Outcome.panicked msg
  | Outcome.err e => Outcome.err e
  | Outcome.ok (ServiceVal.tree svc) =>
    Outcome.ok
      { Params := params, Service := svc,
        OperationMeta :=
          { UUID := generateUUID randomBytes, Created := now, Executed := 0, Returned := 0 },
        Logger := logger }
  | Outcome.ok _ => Outcome.panicked "reflect: Set using value of wrong type"

/-- NewShowNodeQuery (bus.go:40-42), the public entry point, as the
instantiation `CreateOperation[*ShowNodeQuery]`: the struct names
`Service NodeService` (operations.go:8). -/
def NewShowNodeQuery {σ Λ : Type} (reg : ServiceRegistry (ServiceVal σ))
    (logger : Λ) (params : ShowNodeQueryParams) (randomBytes : List Nat)
    (now : GoTime) : Outcome (ShowNodeQuery σ Λ) :=
  match reg.get ServiceType.nodeService with
  | Outcome.panicked msg => Outcome.panicked msg
  | Outcome.err e => Outcome.err e
  | Outcome.ok (ServiceVal.node svc) =>
    Outcome.ok
      { Params := params, Service := svc,
        OperationMeta :=
          { UUID := generateUUID randomBytes, Created := now, Executed := 0, Returned := 0 },
        Logger := logger }
  | Outcome.ok _ => Outcome.panicked "reflect: Set using value of wrong type"

/-- createCreateListCommand (bus.go:174-182). -/
def OperationBus.createCreateListCommand {σ Λ : Type} (b : OperationBus σ Λ)
    (params : CreateListCommandParams) (metadata : OperationMetadata) :
    Outcome (AnyOp σ Λ) :=
  match GetListService b.registry with
  | Outcome.ok service =>
    Outcome.ok (AnyOp.createList
      { Params := params, Service := service, OperationMeta := metadata, Logger := b.logger })
  | Outcome.err e => Outcome.err e
  | Outcome.panicked msg => Outcome.panicked msg

/-- createDisplayNodeTreeCommand (bus.go:164-172). -/
def OperationBus.createDisplayNodeTreeCommand {σ Λ : Type} (b : OperationBus σ Λ)
    (params : DisplayNodeTreeCommandParams) (metadata : OperationMetadata) :
    Outcome (AnyOp σ Λ) :=
  match GetTreeService b.registry with
  | Outcome.ok service =>
    Outcome.ok (AnyOp.displayNodeTree
      { Params := params, Service := service, OperationMeta := metadata, Logger := b.logger })
  | Outcome.err e => Outcome.err e
  | Outcome.panicked msg => Outcome.panicked msg

/-- createShowNodeQuery (bus.go:184-192). -/
def OperationBus.createShowNodeQuery {σ Λ : Type} (b : OperationBus σ Λ)
    (params : ShowNodeQueryParams) (metadata : OperationMetadata) :
    Outcome (AnyOp σ Λ) :=
  match GetNodeService b.registry with
  | Outcome.ok service =>
    Outcome.ok (AnyOp.showNode
      { Params := params, Service := service, OperationMeta := metadata, Logger := b.logger })
  | Outcome.err e => Outcome.err e
  | Outcome.panicked msg => Outcome.panicked msg

/-- CreateFromDescriptor (bus.go:135-162): dispatch on the type tag,
unmarshal the params payload into the params struct of the tag (an error there
is returned to the caller), and rebuild the operation through the
corresponding create helper, passing `descriptor.Metadata` through as it
stands.  The method reads the bus and never writes it, so the bus is
returned unchanged as the first component. -/
def OperationBus.CreateFromDescriptor {σ Λ : Type} (b : OperationBus σ Λ)
    (descriptor : OperationDescriptor) : OperationBus σ Λ × Outcome (AnyOp σ Λ) :=
  if descriptor.«Type» = "DisplayNodeTreeCommand" then
    match unmarshalDisplayNodeTreeCommandParams descriptor.Params with
    | Except.error e => (b, Outcome.err e)
    | Except.ok params => (b, b.createDisplayNodeTreeCommand params descriptor.Metadata)
  else if descriptor.«Type» = "CreateListCommand" then
    match unmarshalCreateListCommandParams descriptor.Params with
    | Except.error e => (b, Outcome.err e)
    | Except.ok params => (b, b.createCreateListCommand params descriptor.Metadata)
  else if descriptor.«Type» = "ShowNodeQuery" then
    match unmarshalShowNodeQueryParams descriptor.Params with
    | Except.error e => (b, Outcome.err e)
    | Except.ok params => (b, b.createShowNodeQuery params descriptor.Metadata)
  else
    (b, Outcome.err ("unknown operation type: " ++ descriptor.«Type»))

/-- The descriptor round trip of the spec: marshal the operation
descriptor to wire form, unmarshal it back into a descriptor, and hand
that to CreateFromDescriptor.  A decode failure of the descriptor itself
surfaces as an unmarshal error at the caller. -/
def wireRoundTrip {σ Λ : Type} (b : OperationBus σ Λ) (op : AnyOp σ Λ) :
    OperationBus σ Λ × Outcome (AnyOp σ Λ) :=
  match unmarshalDescriptor (encodeDescriptor op.descriptor) with
  | Except.error e => (b, Outcome.err e)
  | Except.ok d => b.CreateFromDescriptor d

/-! ### Concrete fixtures

Closed instances used by counterexample and witness theorems, modelled on
`internal/services/mock_services.go` with a trivial world `Unit` and a
unit logger. -/

/-- MockListService (mock_services.go:40-67), non-empty-title path. -/
def mockListService : ListServiceM Unit :=
  fun s p => (s, { Node := { ID := 42, Title := p.Title, Description := p.Description },
                   Errors := [] }, none)

/-- MockTreeService result shape (mock_services.go:11-37), fixed output. -/
def mockTreeService : TreeServiceM Unit :=
  fun s _ => (s, { Nodes := [{ ID := 1, Title := "Root Node", Description := "The root of the tree" }],
                   Stats := { TotalNodes := 3, MaxDepth := 2 } }, none)

/-- MockNodeService (mock_services.go:70-87), valid-reference path. -/
def mockNodeService : NodeServiceM Unit :=
  fun s p => (s, { ID := p.Ref, Title := "Node", Description := "" }, none)

/-- Registry with all three mock services registered, as the test
bootstrap in operation_test.go:20-23. -/
def testRegistry : ServiceRegistry (ServiceVal Unit) :=
  ((NewServiceRegistry.register ServiceType.treeService (ServiceVal.tree mockTreeService)).register
      ServiceType.listService (ServiceVal.list mockListService)).register
    ServiceType.nodeService (ServiceVal.node mockNodeService)

/-- Bus over the full test registry. -/
def testBus : OperationBus Unit Unit :=
  { registry := testRegistry, logger := () }

/-- A CreateListCommand that has already been executed: its metadata
carries non-zero `Executed` and `Returned` stamps. -/
def executedCmd : CreateListCommand Unit Unit :=
  { Params := { Title := "Test List", Description := "A test list", ParentID := none },
    Service := mockListService,
    OperationMeta := { UUID := "u1", Created := 5, Executed := 7, Returned := 9 },
    Logger := () }

/-- Sixteen oracle bytes for `crypto/rand.Read`. -/
def bytes16 : List Nat := List.replicate 16 0

/-- A metadata value whose `Executed` and `Returned` stamps are unset. -/
def c3Meta : OperationMetadata :=
  { UUID := "abc", Created := 3, Executed := 0, Returned := 0 }

/-! ### Helper lemmas: timestamp codec round trip -/

/-- Recombining the digits of `n` yields `n`, given enough fuel. -/
theorem ofDigitsM_digitsAux (fuel : Nat) :
    ∀ n : Nat, n ≤ fuel → ofDigitsM (digitsAux fuel n) = n := by
  induction fuel with
  | zero =>
    intro n hn
    interval_cases n
    rfl
  | succ f ih =>
    intro n hn
    by_cases h0 : n = 0
    · subst h0
      simp [digitsAux, ofDigitsM]
    · have hlt : n / 10 < n := Nat.div_lt_self (Nat.pos_of_ne_zero h0) (by omega)
      have hle : n / 10 ≤ f := by omega
      simp only [digitsAux, if_neg h0, ofDigitsM, ih (n / 10) hle]
      omega

/-- Every digit produced by `digitsAux` is below 10. -/
theorem digitsAux_lt (fuel : Nat) :
    ∀ n d : Nat, d ∈ digitsAux fuel n → d < 10 := by
  induction fuel with
  | zero =>
    intro n d hd
    simp [digitsAux] at hd
  | succ f ih =>
    intro n d hd
    by_cases h0 : n = 0
    · subst h0
      simp [digitsAux] at hd
    · simp only [digitsAux, if_neg h0, List.mem_cons] at hd
      rcases hd with h | h
      · omega
      · exact ih (n / 10) d h

/-- The character of a decimal digit is a digit character. -/
theorem digitChar_isDigit (d : Nat) (hd : d < 10) : (Nat.digitChar d).isDigit = true := by
  interval_cases d <;> decide

/-- Reading the code of a decimal digit character recovers the digit. -/
theorem digitChar_toNat (d : Nat) (hd : d < 10) : (Nat.digitChar d).toNat - 48 = d := by
  interval_cases d <;> decide

/-- Mapping print-then-read over a digit list is the identity. -/
theorem map_digitChar_toNat (l : List Nat) (hl : ∀ d ∈ l, d < 10) :
    l.map (fun d => (Nat.digitChar d).toNat - 48) = l := by
  induction l with
  | nil => rfl
  | cons a as ih =>
    simp only [List.map_cons, List.cons.injEq]
    refine ⟨digitChar_toNat a (hl a (by simp)), ih fun d hd => hl d (by simp [hd])⟩

/-- The timestamp parser inverts the timestamp printer. -/
theorem rfc3339_roundTrip (t : GoTime) : rfc3339Parse (rfc3339 t) = some t := by
  have hall : ((digitsAux t t).map Nat.digitChar).all (fun c => c.isDigit) = true := by
    rw [List.all_eq_true]
    intro c hc
    rw [List.mem_map] at hc
    obtain ⟨d, hd, rfl⟩ := hc
    exact digitChar_isDigit d (digitsAux_lt t t d hd)
  have hmap : ((digitsAux t t).map Nat.digitChar).map (fun c => c.toNat - 48)
      = digitsAux t t := by
    rw [List.map_map]
    exact map_digitChar_toNat (digitsAux t t) (digitsAux_lt t t)
  simp only [rfc3339, rfc3339Parse, hall, if_true, hmap,
    ofDigitsM_digitsAux t t (Nat.le_refl t)]

/-- Storing a printed timestamp into a `time.Time` field recovers the
timestamp without error. -/
theorem decodeTimeValue_rfc3339 (fieldName : String) (t : GoTime) :
    decodeTimeValue fieldName (Json.str (rfc3339 t)) = (some t, none) := by
  simp [decodeTimeValue, parseTimeField, rfc3339_roundTrip]

/-- Unmarshal of marshalled metadata recovers the metadata verbatim. -/
theorem decodeMetadataFields_encodeMetadata (m : OperationMetadata) :
    decodeMetadataFields (encodeMetadata m) = Except.ok m := by
  obtain ⟨u, cr, ex, re⟩ := m
  simp +decide [decodeMetadataFields, encodeMetadata, metaStep, setMetadataField,
    firstErr, jsonTime, decodeStringValue, decodeTimeValue_rfc3339]

/-- Storing a marshalled metadata object recovers it without error. -/
theorem decodeMetadataValue_encodeMetadata (m : OperationMetadata) :
    decodeMetadataValue (Json.obj (encodeMetadata m)) = (some m, none) := by
  simp [decodeMetadataValue, decodeMetadataFields_encodeMetadata]

/-- Unmarshal of a marshalled descriptor recovers the descriptor. -/
theorem unmarshalDescriptor_encodeDescriptor (d : OperationDescriptor) :
    unmarshalDescriptor (encodeDescriptor d) = Except.ok d := by
  obtain ⟨t, p, m⟩ := d
  simp +decide [unmarshalDescriptor, encodeDescriptor, descStep, setDescriptorField,
    firstErr, decodeStringValue, decodeMetadataValue_encodeMetadata, zeroDescriptor]

/-- Params round trip for CreateListCommandParams. -/
theorem unmarshal_encode_createList (p : CreateListCommandParams) :
    unmarshalCreateListCommandParams (encodeCreateListCommandParams p) = Except.ok p := by
  obtain ⟨t, d, pid⟩ := p
  cases pid <;>
    simp +decide [unmarshalCreateListCommandParams, encodeCreateListCommandParams,
      decodeCreateListFields, clcStep, setCreateListField, firstErr,
      decodeStringValue, decodePtrIntValue]

/-- Params round trip for DisplayNodeTreeCommandParams. -/
theorem unmarshal_encode_displayNodeTree (p : DisplayNodeTreeCommandParams) :
    unmarshalDisplayNodeTreeCommandParams (encodeDisplayNodeTreeCommandParams p)
      = Except.ok p := by
  obtain ⟨r, md⟩ := p
  simp +decide [unmarshalDisplayNodeTreeCommandParams, encodeDisplayNodeTreeCommandParams,
    decodeDisplayNodeTreeFields, dntStep, setDisplayNodeTreeField, firstErr,
    decodeStringValue, decodeIntValue]

/-- Params round trip for ShowNodeQueryParams. -/
theorem unmarshal_encode_showNode (p : ShowNodeQueryParams) :
    unmarshalShowNodeQueryParams (encodeShowNodeQueryParams p) = Except.ok p := by
  obtain ⟨r⟩ := p
  simp +decide [unmarshalShowNodeQueryParams, encodeShowNodeQueryParams,
    decodeShowNodeFields, snqStep, setShowNodeField, firstErr, decodeIntValue]

/-! ### Helper lemmas: decoder error characterisation -/

/-- A first-error accumulator is clear iff both inputs are. -/
theorem firstErr_eq_none (a b : Option String) :
    firstErr a b = none ↔ a = none ∧ b = none := by
  cases a <;> simp [firstErr]

/-- A decoding step records no error exactly when the key/value pair is
storable. -/
theorem setCreateListField_none (p : CreateListCommandParams) (k : String) (v : Json) :
    (setCreateListField p k v).2 = none ↔ createListFieldCompat k v = true := by
  simp only [setCreateListField, createListFieldCompat]
  split_ifs <;> cases v <;>
    simp [decodeStringValue, decodePtrIntValue, stringValueCompat, intValueCompat]

/-- The decode fold over CreateListCommandParams ends clear of error iff
it started clear and every pair is storable. -/
theorem clcFoldl_none (fs : List (String × Json)) :
    ∀ (p0 : CreateListCommandParams) (e0 : Option String),
      (fs.foldl clcStep (p0, e0)).2 = none ↔
        (e0 = none ∧ ∀ kv ∈ fs, createListFieldCompat kv.1 kv.2 = true) := by
  induction fs with
  | nil => intro p0 e0; simp
  | cons kv tl ih =>
    intro p0 e0
    rw [List.foldl_cons]
    show ((tl.foldl clcStep (clcStep (p0, e0) kv)).2 = none) ↔ _
    rw [ih, clcStep]
    simp only [firstErr_eq_none, setCreateListField_none, List.mem_cons]
    constructor
    · rintro ⟨⟨he, hc⟩, hall⟩
      exact ⟨he, fun x hx => by rcases hx with rfl | hx; exact hc; exact hall x hx⟩
    · rintro ⟨he, hall⟩
      exact ⟨⟨he, hall kv (Or.inl rfl)⟩, fun x hx => hall x (Or.inr hx)⟩

/-- A key naming no declared field is skipped without effect. -/
theorem setCreateListField_unknown (p : CreateListCommandParams) (k : String) (v : Json)
    (h : createListFieldKnown k = false) : setCreateListField p k v = (p, none) := by
  simp only [createListFieldKnown] at h
  simp only [setCreateListField]
  split_ifs at h ⊢ <;> simp_all

/-- A payload made only of unrecognised keys leaves the accumulator
untouched. -/
theorem clcFoldl_unknown (fs : List (String × Json)) :
    ∀ (p0 : CreateListCommandParams) (e0 : Option String),
      (∀ kv ∈ fs, createListFieldKnown kv.1 = false) →
        fs.foldl clcStep (p0, e0) = (p0, e0) := by
  induction fs with
  | nil => intro p0 e0 _; rfl
  | cons kv tl ih =>
    intro p0 e0 h
    rw [List.foldl_cons]
    have hstep : clcStep (p0, e0) kv = (p0, e0) := by
      rw [clcStep, setCreateListField_unknown p0 kv.1 kv.2 (h kv (List.mem_cons_self kv tl))]
      cases e0 <;> rfl
    rw [hstep]
    exact ih p0 e0 fun x hx => h x (List.mem_cons_of_mem kv hx)

/-- The CreateListCommandParams decoder fails exactly when some present
key matching a declared field carries an incompatible value. -/
theorem decodeCreateListFields_error_iff (fs : List (String × Json)) :
    (∃ e, decodeCreateListFields fs = Except.error e) ↔
      ∃ kv ∈ fs, createListFieldCompat kv.1 kv.2 = false := by
  unfold decodeCreateListFields
  rcases hfold : (fs.foldl clcStep
      ({ Title := "", Description := "", ParentID := none }, none)).2 with _ | e
  · simp only [hfold]
    constructor
    · rintro ⟨e, he⟩
      exact absurd he (by simp)
    · rintro ⟨kv, hkv, hc⟩
      have hall := (clcFoldl_none fs
        { Title := "", Description := "", ParentID := none } none).mp hfold
      exact absurd (hall.2 kv hkv) (by simp [hc])
  · simp only [hfold]
    constructor
    · rintro ⟨_, _⟩
      by_contra hnone
      push_neg at hnone
      have h2 : (fs.foldl clcStep
          ({ Title := "", Description := "", ParentID := none }, none)).2 = none := by
        refine (clcFoldl_none fs
          { Title := "", Description := "", ParentID := none } none).mpr ⟨rfl, ?_⟩
        intro kv hkv
        have h3 := hnone kv hkv
        revert h3
        cases createListFieldCompat kv.1 kv.2 <;> simp
      rw [hfold] at h2
      exact Option.noConfusion h2
    · intro _
      exact ⟨e, rfl⟩

/-- A payload of only unrecognised keys decodes to the zero params. -/
theorem decodeCreateListFields_unknown (fs : List (String × Json))
    (h : ∀ kv ∈ fs, createListFieldKnown kv.1 = false) :
    decodeCreateListFields fs
      = Except.ok { Title := "", Description := "", ParentID := none } := by
  unfold decodeCreateListFields
  rw [clcFoldl_unknown fs { Title := "", Description := "", ParentID := none } none h]

/-- A decoding step into DisplayNodeTreeCommandParams records no error
exactly when the key/value pair is storable. -/
theorem setDisplayNodeTreeField_none (p : DisplayNodeTreeCommandParams) (k : String)
    (v : Json) :
    (setDisplayNodeTreeField p k v).2 = none ↔ displayFieldCompat k v = true := by
  simp only [setDisplayNodeTreeField, displayFieldCompat]
  split_ifs <;> cases v <;>
    simp [decodeStringValue, decodeIntValue, stringValueCompat, intValueCompat]

/-- The decode fold over DisplayNodeTreeCommandParams ends clear of
error iff it started clear and every pair is storable. -/
theorem dntFoldl_none (fs : List (String × Json)) :
    ∀ (p0 : DisplayNodeTreeCommandParams) (e0 : Option String),
      (fs.foldl dntStep (p0, e0)).2 = none ↔
        (e0 = none ∧ ∀ kv ∈ fs, displayFieldCompat kv.1 kv.2 = true) := by
  induction fs with
  | nil => intro p0 e0; simp
  | cons kv tl ih =>
    intro p0 e0
    rw [List.foldl_cons]
    show ((tl.foldl dntStep (dntStep (p0, e0) kv)).2 = none) ↔ _
    rw [ih, dntStep]
    simp only [firstErr_eq_none, setDisplayNodeTreeField_none, List.mem_cons]
    constructor
    · rintro ⟨⟨he, hc⟩, hall⟩
      exact ⟨he, fun x hx => by rcases hx with rfl | hx; exact hc; exact hall x hx⟩
    · rintro ⟨he, hall⟩
      exact ⟨⟨he, hall kv (Or.inl rfl)⟩, fun x hx => hall x (Or.inr hx)⟩

/-- A key naming no DisplayNodeTreeCommandParams field is skipped
without effect. -/
theorem setDisplayNodeTreeField_unknown (p : DisplayNodeTreeCommandParams) (k : String)
    (v : Json) (h : displayFieldKnown k = false) :
    setDisplayNodeTreeField p k v = (p, none) := by
  simp only [displayFieldKnown] at h
  simp only [setDisplayNodeTreeField]
  split_ifs at h ⊢ <;> simp_all

/-- A payload made only of keys unknown to DisplayNodeTreeCommandParams
leaves the accumulator untouched. -/
theorem dntFoldl_unknown (fs : List (String × Json)) :
    ∀ (p0 : DisplayNodeTreeCommandParams) (e0 : Option String),
      (∀ kv ∈ fs, displayFieldKnown kv.1 = false) →
        fs.foldl dntStep (p0, e0) = (p0, e0) := by
  induction fs with
  | nil => intro p0 e0 _; rfl
  | cons kv tl ih =>
    intro p0 e0 h
    rw [List.foldl_cons]
    have hstep : dntStep (p0, e0) kv = (p0, e0) := by
      rw [dntStep, setDisplayNodeTreeField_unknown p0 kv.1 kv.2
        (h kv (List.mem_cons_self kv tl))]
      cases e0 <;> rfl
    rw [hstep]
    exact ih p0 e0 fun x hx => h x (List.mem_cons_of_mem kv hx)

/-- The DisplayNodeTreeCommandParams decoder fails exactly when some
present key matching a declared field carries an incompatible value. -/
theorem decodeDisplayNodeTreeFields_error_iff (fs : List (String × Json)) :
    (∃ e, decodeDisplayNodeTreeFields fs = Except.error e) ↔
      ∃ kv ∈ fs, displayFieldCompat kv.1 kv.2 = false := by
  unfold decodeDisplayNodeTreeFields
  rcases hfold : (fs.foldl dntStep
      ({ RootReference := "", MaxDepth := 0 }, none)).2 with _ | e
  · simp only [hfold]
    constructor
    · rintro ⟨e, he⟩
      exact absurd he (by simp)
    · rintro ⟨kv, hkv, hc⟩
      have hall := (dntFoldl_none fs
        { RootReference := "", MaxDepth := 0 } none).mp hfold
      exact absurd (hall.2 kv hkv) (by simp [hc])
  · simp only [hfold]
    constructor
    · rintro ⟨_, _⟩
      by_contra hnone
      push_neg at hnone
      have h2 : (fs.foldl dntStep
          ({ RootReference := "", MaxDepth := 0 }, none)).2 = none := by
        refine (dntFoldl_none fs
          { RootReference := "", MaxDepth := 0 } none).mpr ⟨rfl, ?_⟩
        intro kv hkv
        have h3 := hnone kv hkv
        revert h3
        cases displayFieldCompat kv.1 kv.2 <;> simp
      rw [hfold] at h2
      exact Option.noConfusion h2
    · intro _
      exact ⟨e, rfl⟩

/-- A payload of keys unknown to DisplayNodeTreeCommandParams decodes to
the zero params. -/
theorem decodeDisplayNodeTreeFields_unknown (fs : List (String × Json))
    (h : ∀ kv ∈ fs, displayFieldKnown kv.1 = false) :
    decodeDisplayNodeTreeFields fs
      = Except.ok { RootReference := "", MaxDepth := 0 } := by
  unfold decodeDisplayNodeTreeFields
  rw [dntFoldl_unknown fs { RootReference := "", MaxDepth := 0 } none h]

/-- A decoding step into ShowNodeQueryParams records no error exactly
when the key/value pair is storable. -/
theorem setShowNodeField_none (p : ShowNodeQueryParams) (k : String) (v : Json) :
    (setShowNodeField p k v).2 = none ↔ showNodeFieldCompat k v = true := by
  simp only [setShowNodeField, showNodeFieldCompat]
  split_ifs <;> cases v <;> simp [decodeIntValue, intValueCompat]

/-- The decode fold over ShowNodeQueryParams ends clear of error iff it
started clear and every pair is storable. -/
theorem snqFoldl_none (fs : List (String × Json)) :
    ∀ (p0 : ShowNodeQueryParams) (e0 : Option String),
      (fs.foldl snqStep (p0, e0)).2 = none ↔
        (e0 = none ∧ ∀ kv ∈ fs, showNodeFieldCompat kv.1 kv.2 = true) := by
  induction fs with
  | nil => intro p0 e0; simp
  | cons kv tl ih =>
    intro p0 e0
    rw [List.foldl_cons]
    show ((tl.foldl snqStep (snqStep (p0, e0) kv)).2 = none) ↔ _
    rw [ih, snqStep]
    simp only [firstErr_eq_none, setShowNodeField_none, List.mem_cons]
    constructor
    · rintro ⟨⟨he, hc⟩, hall⟩
      exact ⟨he, fun x hx => by rcases hx with rfl | hx; exact hc; exact hall x hx⟩
    · rintro ⟨he, hall⟩
      exact ⟨⟨he, hall kv (Or.inl rfl)⟩, fun x hx => hall x (Or.inr hx)⟩

/-- A key naming no ShowNodeQueryParams field is skipped without
effect. -/
theorem setShowNodeField_unknown (p : ShowNodeQueryParams) (k : String) (v : Json)
    (h : showNodeFieldKnown k = false) : setShowNodeField p k v = (p, none) := by
  simp only [showNodeFieldKnown] at h
  simp only [setShowNodeField]
  split_ifs at h ⊢ <;> simp_all

/-- A payload made only of keys unknown to ShowNodeQueryParams leaves
the accumulator untouched. -/
theorem snqFoldl_unknown (fs : List (String × Json)) :
    ∀ (p0 : ShowNodeQueryParams) (e0 : Option String),
      (∀ kv ∈ fs, showNodeFieldKnown kv.1 = false) →
        fs.foldl snqStep (p0, e0) = (p0, e0) := by
  induction fs with
  | nil => intro p0 e0 _; rfl
  | cons kv tl ih =>
    intro p0 e0 h
    rw [List.foldl_cons]
    have hstep : snqStep (p0, e0) kv = (p0, e0) := by
      rw [snqStep, setShowNodeField_unknown p0 kv.1 kv.2
        (h kv (List.mem_cons_self kv tl))]
      cases e0 <;> rfl
    rw [hstep]
    exact ih p0 e0 fun x hx => h x (List.mem_cons_of_mem kv hx)

/-- The ShowNodeQueryParams decoder fails exactly when some present key
matching the declared field carries an incompatible value. -/
theorem decodeShowNodeFields_error_iff (fs : List (String × Json)) :
    (∃ e, decodeShowNodeFields fs = Except.error e) ↔
      ∃ kv ∈ fs, showNodeFieldCompat kv.1 kv.2 = false := by
  unfold decodeShowNodeFields
  rcases hfold : (fs.foldl snqStep ({ Ref := 0 }, none)).2 with _ | e
  · simp only [hfold]
    constructor
    · rintro ⟨e, he⟩
      exact absurd he (by simp)
    · rintro ⟨kv, hkv, hc⟩
      have hall := (snqFoldl_none fs { Ref := 0 } none).mp hfold
      exact absurd (hall.2 kv hkv) (by simp [hc])
  · simp only [hfold]
    constructor
    · rintro ⟨_, _⟩
      by_contra hnone
      push_neg at hnone
      have h2 : (fs.foldl snqStep ({ Ref := 0 }, none)).2 = none := by
        refine (snqFoldl_none fs { Ref := 0 } none).mpr ⟨rfl, ?_⟩
        intro kv hkv
        have h3 := hnone kv hkv
        revert h3
        cases showNodeFieldCompat kv.1 kv.2 <;> simp
      rw [hfold] at h2
      exact Option.noConfusion h2
    · intro _
      exact ⟨e, rfl⟩

/-- A payload of keys unknown to ShowNodeQueryParams decodes to the zero
params. -/
theorem decodeShowNodeFields_unknown (fs : List (String × Json))
    (h : ∀ kv ∈ fs, showNodeFieldKnown kv.1 = false) :
    decodeShowNodeFields fs = Except.ok { Ref := 0 } := by
  unfold decodeShowNodeFields
  rw [snqFoldl_unknown fs { Ref := 0 } none h]

/-! ### Helper lemmas: generated identifiers -/

/-- Hex encoding yields two characters per byte. -/
theorem hexEncode_length (bytes : List Nat) :
    (hexEncode bytes).length = 2 * bytes.length := by
  induction bytes with
  | nil => rfl
  | cons b bs ih =>
    simp only [hexEncode, List.foldr_cons, List.length_cons] at ih ⊢
    omega

/-- A UUID generated from the full 16 random bytes is non-empty. -/
theorem generateUUID_ne_empty (bytes : List Nat) (h : bytes.length = 16) :
    generateUUID bytes ≠ "" := by
  intro hcon
  have h2 : (generateUUID bytes).data.length = 0 := by rw [hcon]; rfl
  have h3 : (generateUUID bytes).data = hexEncode bytes := rfl
  rw [h3, hexEncode_length, h] at h2
  omega

/-! ## Claim theorems -/

/-- The operation rebuilt by the C1 counterexample round trip: metadata
taken over verbatim from the executed descriptor, service and logger
re-resolved from the bus. -/
def c1Rebuilt : CreateListCommand Unit Unit :=
  { Params := { Title := "Test List", Description := "A test list", ParentID := none },
    Service := mockListService,
    OperationMeta := { UUID := "u1", Created := 5, Executed := 7, Returned := 9 },
    Logger := () }

/-- C1 counterexample: round-tripping an already executed operation
through its descriptor encoding and CreateFromDescriptor yields an
operation whose `Executed` and `Returned` stamps are still set (7 and 9),
not unset; bus.go:150 and bus.go:174-182 pass `descriptor.Metadata`
through without clearing anything, refuting the clearing part of the
claim at this input. -/
theorem c1_counterexample :
    (wireRoundTrip testBus (AnyOp.createList executedCmd)).2
        = Outcome.ok (AnyOp.createList c1Rebuilt)
      ∧ c1Rebuilt.OperationMeta.Executed ≠ 0
      ∧ c1Rebuilt.OperationMeta.Returned ≠ 0 := by
  refine ⟨?_, by decide, by decide⟩
  rfl

/-- C1 (amended): for every operation, passing its descriptor encoding
through CreateFromDescriptor yields an operation of the same type whose
`Params` equal the original parameters and whose metadata — `UUID`,
`Created`, and also `Executed` and `Returned` — is preserved verbatim
from the descriptor; nothing is cleared.  The service and logger are
re-resolved from the bus.  The three hypotheses say the bus has the three
contracts registered with implementations of the right dynamic type. -/
theorem c1_roundTrip_amended {σ Λ : Type} (b : OperationBus σ Λ) (op : AnyOp σ Λ)
    (ts : TreeServiceM σ) (ls : ListServiceM σ) (ns : NodeServiceM σ)
    (htree : b.registry.services ServiceType.treeService = some (ServiceVal.tree ts))
    (hlist : b.registry.services ServiceType.listService = some (ServiceVal.list ls))
    (hnode : b.registry.services ServiceType.nodeService = some (ServiceVal.node ns)) :
    wireRoundTrip b op = (b, Outcome.ok (match op with
      | AnyOp.displayNodeTree c => AnyOp.displayNodeTree
          { Params := c.Params, Service := ts, OperationMeta := c.OperationMeta,
            Logger := b.logger }
      | AnyOp.createList c => AnyOp.createList
          { Params := c.Params, Service := ls, OperationMeta := c.OperationMeta,
            Logger := b.logger }
      | AnyOp.showNode q => AnyOp.showNode
          { Params := q.Params, Service := ns, OperationMeta := q.OperationMeta,
            Logger := b.logger })) := by
  cases op with
  | displayNodeTree c =>
    simp +decide [wireRoundTrip, AnyOp.descriptor, DisplayNodeTreeCommand.Descriptor,
      unmarshalDescriptor_encodeDescriptor, OperationBus.CreateFromDescriptor,
      unmarshal_encode_displayNodeTree, OperationBus.createDisplayNodeTreeCommand,
      GetTreeService, ServiceRegistry.get, htree]
  | createList c =>
    simp +decide [wireRoundTrip, AnyOp.descriptor, CreateListCommand.Descriptor,
      unmarshalDescriptor_encodeDescriptor, OperationBus.CreateFromDescriptor,
      unmarshal_encode_createList, OperationBus.createCreateListCommand,
      GetListService, ServiceRegistry.get, hlist]
  | showNode q =>
    simp +decide [wireRoundTrip, AnyOp.descriptor, ShowNodeQuery.Descriptor,
      unmarshalDescriptor_encodeDescriptor, OperationBus.CreateFromDescriptor,
      unmarshal_encode_showNode, OperationBus.createShowNodeQuery,
      GetNodeService, ServiceRegistry.get, hnode]

/-- C1 witness: the amended round-trip law evaluated on the executed
command over the fully registered test bus. -/
theorem c1_roundTrip_witness :
    wireRoundTrip testBus (AnyOp.createList executedCmd)
      = (testBus, Outcome.ok (AnyOp.createList
          { Params := executedCmd.Params, Service := mockListService,
            OperationMeta := executedCmd.OperationMeta, Logger := () })) :=
  c1_roundTrip_amended testBus (AnyOp.createList executedCmd)
    mockTreeService mockListService mockNodeService rfl rfl rfl

/-- C2 counterexample: constructing a CreateListCommand through the
public entry point with no ListService registered does not return an
error value — the registry lookup panic (registry.go:27) escapes the
entry point unrecovered. -/
theorem c2_counterexample :
    @NewCreateListCommand Unit Unit NewServiceRegistry ()
        { Title := "Test List", Description := "", ParentID := none } bytes16 0
      = Outcome.panicked "Service type operation.ListService not registered" := rfl

/-- C2 (amended): for every construction request whose required service
contract is not registered, CreateOperation panics with a message that
identifies the missing contract; the panic escapes the public boundary
(nothing in the package recovers it) instead of being returned as an
error value. -/
theorem c2_unregistered_amended {σ π Λ : Type} (reg : ServiceRegistry (ServiceVal σ))
    (logger : Λ) (sh : OpShape) (params : π) (randomBytes : List Nat) (now : GoTime)
    (t : ServiceType) (h1 : sh.serviceField = some t) (h2 : reg.services t = none) :
    CreateOperation reg logger sh params randomBytes now
      = Outcome.panicked ("Service type " ++ t.goName ++ " not registered") := by
  simp [CreateOperation, getRequiredServiceType, h1, ServiceRegistry.get, h2]

/-- C2 witness: the amended statement evaluated at the CreateListCommand
shape over the empty registry. -/
theorem c2_unregistered_witness :
    @CreateOperation Unit Unit Unit NewServiceRegistry ()
        { name := "CreateListCommand", serviceField := some ServiceType.listService }
        () bytes16 0
      = Outcome.panicked ("Service type " ++ ServiceType.listService.goName
          ++ " not registered") :=
  c2_unregistered_amended NewServiceRegistry ()
    { name := "CreateListCommand", serviceField := some ServiceType.listService }
    () bytes16 0 ServiceType.listService rfl rfl

/-- C3 counterexample: the metadata encoding of a metadata value whose
`Executed` and `Returned` are unset still carries the keys "executed" and
"returned", and its identifier key is "uuid", not "id" — refuting both
the field name and the omitted-when-unset parts of the claim. -/
theorem c3_counterexample :
    ((encodeMetadata c3Meta).map Prod.fst = ["uuid", "created", "executed", "returned"])
      ∧ ((encodeMetadata c3Meta).map Prod.fst).contains "id" = false := by
  constructor
  · rfl
  · decide

/-- C3 (amended): for every metadata value, the JSON encoding of the
metadata object carries exactly the keys "uuid", "created", "executed"
and "returned", in that order: the identifier key is "uuid" (the tag on
operation.go:32), and the `omitempty` options on `Executed`/`Returned`
never omit anything because `encoding/json` does not treat a struct type
such as `time.Time` as empty — an unset stamp is emitted as the zero
timestamp. -/
theorem c3_wire_format_amended (m : OperationMetadata) :
    (encodeMetadata m).map Prod.fst = ["uuid", "created", "executed", "returned"] := rfl

/-- C4: the execution wrapper stamps `Executed = now` before the single
invocation of the business-logic function (which observes the stamped
metadata), stamps `Returned = now` after it returns whether or not it
errored, and hands the result and error of the function back unmodified;
the world after execution is exactly one application of the function. -/
theorem c4_execution_wrapper {σ τ Λ : Type} (tExec tRet : GoTime)
    (meta : OperationMetadata) (logger : Λ)
    (businessLogic : OperationMetadata → σ → σ × τ × Option String) (s : σ) :
    executeOperationMeta tExec tRet meta logger businessLogic s
      = ({ meta with Executed := tExec, Returned := tRet },
         businessLogic { meta with Executed := tExec } s) := rfl

/-- C5: every successful construction — through any of the three public
entry points — followed by one execution satisfies
`created <= executed <= returned`, with a non-empty identifier assigned
at creation and never changed by execution.  The clock hypotheses say the
three `time.Now()` readings are monotone (the Go monotonic clock); the
byte-count hypothesis is `crypto/rand.Read` filling all 16 bytes. -/
theorem c5_metadata_invariants {σ Λ : Type} (reg : ServiceRegistry (ServiceVal σ))
    (logger : Λ) (clParams : CreateListCommandParams)
    (dnParams : DisplayNodeTreeCommandParams) (snParams : ShowNodeQueryParams)
    (ls : ListServiceM σ) (ts : TreeServiceM σ) (ns : NodeServiceM σ)
    (randomBytes : List Nat) (now tExec tRet : GoTime) (s : σ)
    (hlist : reg.services ServiceType.listService = some (ServiceVal.list ls))
    (htree : reg.services ServiceType.treeService = some (ServiceVal.tree ts))
    (hnode : reg.services ServiceType.nodeService = some (ServiceVal.node ns))
    (hlen : randomBytes.length = 16) (h1 : now ≤ tExec) (h2 : tExec ≤ tRet) :
    (∃ c : CreateListCommand σ Λ,
      NewCreateListCommand reg logger clParams randomBytes now = Outcome.ok c
      ∧ c.OperationMeta.UUID ≠ ""
      ∧ c.OperationMeta.Created = now
      ∧ (c.Execute tExec tRet s).1.OperationMeta.Created
          ≤ (c.Execute tExec tRet s).1.OperationMeta.Executed
      ∧ (c.Execute tExec tRet s).1.OperationMeta.Executed
          ≤ (c.Execute tExec tRet s).1.OperationMeta.Returned
      ∧ (c.Execute tExec tRet s).1.OperationMeta.UUID = c.OperationMeta.UUID)
    ∧ (∃ c : DisplayNodeTreeCommand σ Λ,
      NewDisplayNodeTreeCommand reg logger dnParams randomBytes now = Outcome.ok c
      ∧ c.OperationMeta.UUID ≠ ""
      ∧ c.OperationMeta.Created = now
      ∧ (c.Execute tExec tRet s).1.OperationMeta.Created
          ≤ (c.Execute tExec tRet s).1.OperationMeta.Executed
      ∧ (c.Execute tExec tRet s).1.OperationMeta.Executed
          ≤ (c.Execute tExec tRet s).1.OperationMeta.Returned
      ∧ (c.Execute tExec tRet s).1.OperationMeta.UUID = c.OperationMeta.UUID)
    ∧ (∃ q : ShowNodeQuery σ Λ,
      NewShowNodeQuery reg logger snParams randomBytes now = Outcome.ok q
      ∧ q.OperationMeta.UUID ≠ ""
      ∧ q.OperationMeta.Created = now
      ∧ (q.Execute tExec tRet s).1.OperationMeta.Created
          ≤ (q.Execute tExec tRet s).1.OperationMeta.Executed
      ∧ (q.Execute tExec tRet s).1.OperationMeta.Executed
          ≤ (q.Execute tExec tRet s).1.OperationMeta.Returned
      ∧ (q.Execute tExec tRet s).1.OperationMeta.UUID = q.OperationMeta.UUID) := by
  refine ⟨⟨{ Params := clParams, Service := ls,
             OperationMeta := { UUID := generateUUID randomBytes, Created := now,
                                Executed := 0, Returned := 0 },
             Logger := logger }, ?_, generateUUID_ne_empty randomBytes hlen, rfl,
           h1, h2, rfl⟩,
         ⟨{ Params := dnParams, Service := ts,
             OperationMeta := { UUID := generateUUID randomBytes, Created := now,
                                Executed := 0, Returned := 0 },
             Logger := logger }, ?_, generateUUID_ne_empty randomBytes hlen, rfl,
           h1, h2, rfl⟩,
         ⟨{ Params := snParams, Service := ns,
             OperationMeta := { UUID := generateUUID randomBytes, Created := now,
                                Executed := 0, Returned := 0 },
             Logger := logger }, ?_, generateUUID_ne_empty randomBytes hlen, rfl,
           h1, h2, rfl⟩⟩
  · simp [NewCreateListCommand, ServiceRegistry.get, hlist]
  · simp [NewDisplayNodeTreeCommand, ServiceRegistry.get, htree]
  · simp [NewShowNodeQuery, ServiceRegistry.get, hnode]

/-- C5 witness: the invariants evaluated for all three entry points on
the test registry with a concrete monotone clock 1, 2, 3 and sixteen
zero bytes. -/
theorem c5_metadata_invariants_witness :
    (∃ c : CreateListCommand Unit Unit,
      NewCreateListCommand testRegistry ()
          { Title := "Test List", Description := "", ParentID := none } bytes16 1
        = Outcome.ok c
      ∧ c.OperationMeta.UUID ≠ ""
      ∧ c.OperationMeta.Created = 1
      ∧ (c.Execute 2 3 ()).1.OperationMeta.Created
          ≤ (c.Execute 2 3 ()).1.OperationMeta.Executed
      ∧ (c.Execute 2 3 ()).1.OperationMeta.Executed
          ≤ (c.Execute 2 3 ()).1.OperationMeta.Returned
      ∧ (c.Execute 2 3 ()).1.OperationMeta.UUID = c.OperationMeta.UUID)
    ∧ (∃ c : DisplayNodeTreeCommand Unit Unit,
      NewDisplayNodeTreeCommand testRegistry ()
          { RootReference := "root", MaxDepth := 2 } bytes16 1
        = Outcome.ok c
      ∧ c.OperationMeta.UUID ≠ ""
      ∧ c.OperationMeta.Created = 1
      ∧ (c.Execute 2 3 ()).1.OperationMeta.Created
          ≤ (c.Execute 2 3 ()).1.OperationMeta.Executed
      ∧ (c.Execute 2 3 ()).1.OperationMeta.Executed
          ≤ (c.Execute 2 3 ()).1.OperationMeta.Returned
      ∧ (c.Execute 2 3 ()).1.OperationMeta.UUID = c.OperationMeta.UUID)
    ∧ (∃ q : ShowNodeQuery Unit Unit,
      NewShowNodeQuery testRegistry () { Ref := 42 } bytes16 1
        = Outcome.ok q
      ∧ q.OperationMeta.UUID ≠ ""
      ∧ q.OperationMeta.Created = 1
      ∧ (q.Execute 2 3 ()).1.OperationMeta.Created
          ≤ (q.Execute 2 3 ()).1.OperationMeta.Executed
      ∧ (q.Execute 2 3 ()).1.OperationMeta.Executed
          ≤ (q.Execute 2 3 ()).1.OperationMeta.Returned
      ∧ (q.Execute 2 3 ()).1.OperationMeta.UUID = q.OperationMeta.UUID) :=
  c5_metadata_invariants testRegistry ()
    { Title := "Test List", Description := "", ParentID := none }
    { RootReference := "root", MaxDepth := 2 } { Ref := 42 }
    mockListService mockTreeService mockNodeService bytes16 1 2 3 ()
    rfl rfl rfl (by decide) (by decide) (by decide)

/-- C6: the registry get-put laws — after `register(c, i1)`, `get(c)`
returns exactly `i1`; after a further `register(c, i2)` the last write
wins and `get(c)` returns `i2`; `register` never raises a
duplicate-registration error (it is a plain map store). -/
theorem c6_registry_get_put {ν : Type} (r : ServiceRegistry ν) (c : ServiceType)
    (i1 i2 : ν) :
    (r.register c i1).get c = Outcome.ok i1
      ∧ ((r.register c i1).register c i2).get c = Outcome.ok i2 := by
  constructor <;> simp [ServiceRegistry.register, ServiceRegistry.get]

/-- C7 counterexample: constructing an operation whose struct declares no
`Service` field does not return a descriptive error — the discarded
`FieldByName` ok flag (bus.go:97) leaves the nil `reflect.Type`, whose
registry lookup panics. -/
theorem c7_counterexample :
    @CreateOperation Unit Unit Unit NewServiceRegistry ()
        { name := "BareOperation", serviceField := none } () bytes16 0
      = Outcome.panicked "Service type <nil> not registered" := rfl

/-- C7 (amended): for every operation type with no `Service` field (or an
ambiguous promoted one — both make `FieldByName` report failure, which
bus.go:97 discards), construction panics with "Service type <nil> not
registered" rather than returning a descriptive error; no slot is ever
silently picked.  The hypothesis that the nil type is unregistered holds
for every registry built through RegisterService, whose keys are derived
from real type parameters. -/
theorem c7_missing_slot_amended {σ π Λ : Type} (reg : ServiceRegistry (ServiceVal σ))
    (logger : Λ) (sh : OpShape) (params : π) (randomBytes : List Nat) (now : GoTime)
    (h1 : sh.serviceField = none) (h2 : reg.services ServiceType.nilType = none) :
    CreateOperation reg logger sh params randomBytes now
      = Outcome.panicked "Service type <nil> not registered" := by
  simp [CreateOperation, getRequiredServiceType, h1, ServiceRegistry.get, h2,
    ServiceType.goName]

/-- C7 witness: the amended statement evaluated at a bare shape over the
test registry. -/
theorem c7_missing_slot_witness :
    @CreateOperation Unit Unit Unit testRegistry ()
        { name := "BareOperation", serviceField := none } () bytes16 0
      = Outcome.panicked "Service type <nil> not registered" :=
  c7_missing_slot_amended testRegistry ()
    { name := "BareOperation", serviceField := none } () bytes16 0 rfl rfl

/-- C8: for every descriptor whose type tag is none of the three
recognised tags, CreateFromDescriptor returns no operation and an error
value (not a panic) that names the unrecognised tag, and the bus —
registry and logger — is returned unchanged. -/
theorem c8_unknown_tag {σ Λ : Type} (b : OperationBus σ Λ) (d : OperationDescriptor)
    (h1 : d.«Type» ≠ "DisplayNodeTreeCommand") (h2 : d.«Type» ≠ "CreateListCommand")
    (h3 : d.«Type» ≠ "ShowNodeQuery") :
    b.CreateFromDescriptor d
      = (b, Outcome.err ("unknown operation type: " ++ d.«Type»)) := by
  simp [OperationBus.CreateFromDescriptor, h1, h2, h3]

/-- C8 witness: the unknown-tag branch evaluated on the test bus. -/
theorem c8_unknown_tag_witness :
    testBus.CreateFromDescriptor
        { «Type» := "FrobnicateCommand", Params := Json.null,
          Metadata := { UUID := "", Created := 0, Executed := 0, Returned := 0 } }
      = (testBus, Outcome.err ("unknown operation type: " ++ "FrobnicateCommand")) :=
  c8_unknown_tag testBus
    { «Type» := "FrobnicateCommand", Params := Json.null,
      Metadata := { UUID := "", Created := 0, Executed := 0, Returned := 0 } }
    (by decide) (by decide) (by decide)

/-- C9: executing any of the three operation types leaves `Params`, the
injected `Service`, the `Logger` and the metadata `UUID` and `Created`
unchanged; the only mutations are the `Executed` and `Returned` stamps. -/
theorem c9_execute_frame {σ Λ : Type} :
    (∀ (c : CreateListCommand σ Λ) (tExec tRet : GoTime) (s : σ),
        (c.Execute tExec tRet s).1.Params = c.Params
        ∧ (c.Execute tExec tRet s).1.Service = c.Service
        ∧ (c.Execute tExec tRet s).1.Logger = c.Logger
        ∧ (c.Execute tExec tRet s).1.OperationMeta.UUID = c.OperationMeta.UUID
        ∧ (c.Execute tExec tRet s).1.OperationMeta.Created = c.OperationMeta.Created
        ∧ (c.Execute tExec tRet s).1.OperationMeta.Executed = tExec
        ∧ (c.Execute tExec tRet s).1.OperationMeta.Returned = tRet)
    ∧ (∀ (c : DisplayNodeTreeCommand σ Λ) (tExec tRet : GoTime) (s : σ),
        (c.Execute tExec tRet s).1.Params = c.Params
        ∧ (c.Execute tExec tRet s).1.Service = c.Service
        ∧ (c.Execute tExec tRet s).1.Logger = c.Logger
        ∧ (c.Execute tExec tRet s).1.OperationMeta.UUID = c.OperationMeta.UUID
        ∧ (c.Execute tExec tRet s).1.OperationMeta.Created = c.OperationMeta.Created
        ∧ (c.Execute tExec tRet s).1.OperationMeta.Executed = tExec
        ∧ (c.Execute tExec tRet s).1.OperationMeta.Returned = tRet)
    ∧ (∀ (q : ShowNodeQuery σ Λ) (tExec tRet : GoTime) (s : σ),
        (q.Execute tExec tRet s).1.Params = q.Params
        ∧ (q.Execute tExec tRet s).1.Service = q.Service
        ∧ (q.Execute tExec tRet s).1.Logger = q.Logger
        ∧ (q.Execute tExec tRet s).1.OperationMeta.UUID = q.OperationMeta.UUID
        ∧ (q.Execute tExec tRet s).1.OperationMeta.Created = q.OperationMeta.Created
        ∧ (q.Execute tExec tRet s).1.OperationMeta.Executed = tExec
        ∧ (q.Execute tExec tRet s).1.OperationMeta.Returned = tRet) :=
  ⟨fun _ _ _ _ => ⟨rfl, rfl, rfl, rfl, rfl, rfl, rfl⟩,
   fun _ _ _ _ => ⟨rfl, rfl, rfl, rfl, rfl, rfl, rfl⟩,
   fun _ _ _ _ => ⟨rfl, rfl, rfl, rfl, rfl, rfl, rfl⟩⟩

/-- C10: for each of the three recognised type tags, CreateFromDescriptor
on a descriptor whose params payload is a JSON object returns a decode
error exactly when some present key matching a declared field of that
tag carries a value of an incompatible type (JSON null is never an
error); payloads made only of unrecognised keys — such as the params of
another operation type — are accepted and reconstruct the operation with
zero-valued parameters. -/
theorem c10_decode_leniency {σ Λ : Type} (b : OperationBus σ Λ) (m : OperationMetadata)
    (ls : ListServiceM σ) (ts : TreeServiceM σ) (ns : NodeServiceM σ)
    (fs : List (String × Json))
    (hlist : b.registry.services ServiceType.listService = some (ServiceVal.list ls))
    (htree : b.registry.services ServiceType.treeService = some (ServiceVal.tree ts))
    (hnode : b.registry.services ServiceType.nodeService = some (ServiceVal.node ns)) :
    (((∃ e, (b.CreateFromDescriptor
          { «Type» := "CreateListCommand", Params := Json.obj fs, Metadata := m }).2
        = Outcome.err e)
      ↔ ∃ kv ∈ fs, createListFieldCompat kv.1 kv.2 = false)
    ∧ ((∀ kv ∈ fs, createListFieldKnown kv.1 = false) →
        (b.CreateFromDescriptor
            { «Type» := "CreateListCommand", Params := Json.obj fs, Metadata := m }).2
          = Outcome.ok (AnyOp.createList
              { Params := { Title := "", Description := "", ParentID := none },
                Service := ls, OperationMeta := m, Logger := b.logger })))
    ∧ (((∃ e, (b.CreateFromDescriptor
          { «Type» := "DisplayNodeTreeCommand", Params := Json.obj fs,
            Metadata := m }).2
        = Outcome.err e)
      ↔ ∃ kv ∈ fs, displayFieldCompat kv.1 kv.2 = false)
    ∧ ((∀ kv ∈ fs, displayFieldKnown kv.1 = false) →
        (b.CreateFromDescriptor
            { «Type» := "DisplayNodeTreeCommand", Params := Json.obj fs,
              Metadata := m }).2
          = Outcome.ok (AnyOp.displayNodeTree
              { Params := { RootReference := "", MaxDepth := 0 },
                Service := ts, OperationMeta := m, Logger := b.logger })))
    ∧ (((∃ e, (b.CreateFromDescriptor
          { «Type» := "ShowNodeQuery", Params := Json.obj fs, Metadata := m }).2
        = Outcome.err e)
      ↔ ∃ kv ∈ fs, showNodeFieldCompat kv.1 kv.2 = false)
    ∧ ((∀ kv ∈ fs, showNodeFieldKnown kv.1 = false) →
        (b.CreateFromDescriptor
            { «Type» := "ShowNodeQuery", Params := Json.obj fs, Metadata := m }).2
          = Outcome.ok (AnyOp.showNode
              { Params := { Ref := 0 },
                Service := ns, OperationMeta := m, Logger := b.logger }))) := by
  have houtcomeL : (b.CreateFromDescriptor
      { «Type» := "CreateListCommand", Params := Json.obj fs, Metadata := m }).2
      = (match decodeCreateListFields fs with
         | Except.error e => Outcome.err e
         | Except.ok p => b.createCreateListCommand p m) := by
    rcases h : decodeCreateListFields fs with e | p <;>
      simp +decide [OperationBus.CreateFromDescriptor,
        unmarshalCreateListCommandParams, h]
  have houtcomeD : (b.CreateFromDescriptor
      { «Type» := "DisplayNodeTreeCommand", Params := Json.obj fs, Metadata := m }).2
      = (match decodeDisplayNodeTreeFields fs with
         | Except.error e => Outcome.err e
         | Except.ok p => b.createDisplayNodeTreeCommand p m) := by
    rcases h : decodeDisplayNodeTreeFields fs with e | p <;>
      simp +decide [OperationBus.CreateFromDescriptor,
        unmarshalDisplayNodeTreeCommandParams, h]
  have houtcomeS : (b.CreateFromDescriptor
      { «Type» := "ShowNodeQuery", Params := Json.obj fs, Metadata := m }).2
      = (match decodeShowNodeFields fs with
         | Except.error e => Outcome.err e
         | Except.ok p => b.createShowNodeQuery p m) := by
    rcases h : decodeShowNodeFields fs with e | p <;>
      simp +decide [OperationBus.CreateFromDescriptor,
        unmarshalShowNodeQueryParams, h]
  have hcreateL : ∀ p : CreateListCommandParams,
      b.createCreateListCommand p m = Outcome.ok (AnyOp.createList
        { Params := p, Service := ls, OperationMeta := m, Logger := b.logger }) := by
    intro p
    simp [OperationBus.createCreateListCommand, GetListService,
      ServiceRegistry.get, hlist]
  have hcreateD : ∀ p : DisplayNodeTreeCommandParams,
      b.createDisplayNodeTreeCommand p m = Outcome.ok (AnyOp.displayNodeTree
        { Params := p, Service := ts, OperationMeta := m, Logger := b.logger }) := by
    intro p
    simp [OperationBus.createDisplayNodeTreeCommand, GetTreeService,
      ServiceRegistry.get, htree]
  have hcreateS : ∀ p : ShowNodeQueryParams,
      b.createShowNodeQuery p m = Outcome.ok (AnyOp.showNode
        { Params := p, Service := ns, OperationMeta := m, Logger := b.logger }) := by
    intro p
    simp [OperationBus.createShowNodeQuery, GetNodeService,
      ServiceRegistry.get, hnode]
  refine ⟨⟨?_, ?_⟩, ⟨?_, ?_⟩, ?_, ?_⟩
  · rw [houtcomeL]
    rcases h : decodeCreateListFields fs with e | p
    · exact ⟨fun _ => (decodeCreateListFields_error_iff fs).mp ⟨e, h⟩,
             fun _ => ⟨e, rfl⟩⟩
    · simp only []
      constructor
      · rintro ⟨e2, he2⟩
        rw [hcreateL p] at he2
        exact Outcome.noConfusion he2
      · rintro ⟨kv, hkv, hc⟩
        rcases (decodeCreateListFields_error_iff fs).mpr ⟨kv, hkv, hc⟩ with ⟨e, he⟩
        rw [h] at he
        exact Except.noConfusion he
  · intro hunk
    rw [houtcomeL, decodeCreateListFields_unknown fs hunk]
    exact hcreateL { Title := "", Description := "", ParentID := none }
  · rw [houtcomeD]
    rcases h : decodeDisplayNodeTreeFields fs with e | p
    · exact ⟨fun _ => (decodeDisplayNodeTreeFields_error_iff fs).mp ⟨e, h⟩,
             fun _ => ⟨e, rfl⟩⟩
    · simp only []
      constructor
      · rintro ⟨e2, he2⟩
        rw [hcreateD p] at he2
        exact Outcome.noConfusion he2
      · rintro ⟨kv, hkv, hc⟩
        rcases (decodeDisplayNodeTreeFields_error_iff fs).mpr ⟨kv, hkv, hc⟩ with ⟨e, he⟩
        rw [h] at he
        exact Except.noConfusion he
  · intro hunk
    rw [houtcomeD, decodeDisplayNodeTreeFields_unknown fs hunk]
    exact hcreateD { RootReference := "", MaxDepth := 0 }
  · rw [houtcomeS]
    rcases h : decodeShowNodeFields fs with e | p
    · exact ⟨fun _ => (decodeShowNodeFields_error_iff fs).mp ⟨e, h⟩,
             fun _ => ⟨e, rfl⟩⟩
    · simp only []
      constructor
      · rintro ⟨e2, he2⟩
        rw [hcreateS p] at he2
        exact Outcome.noConfusion he2
      · rintro ⟨kv, hkv, hc⟩
        rcases (decodeShowNodeFields_error_iff fs).mpr ⟨kv, hkv, hc⟩ with ⟨e, he⟩
        rw [h] at he
        exact Except.noConfusion he
  · intro hunk
    rw [houtcomeS, decodeShowNodeFields_unknown fs hunk]
    exact hcreateS { Ref := 0 }

/-- C10 witness: a ShowNodeQueryParams-shaped payload on the test bus,
under all three recognised tags — no decode error anywhere, and under
the two tags to which the key "Ref" is unknown the operation is
reconstructed with zero-valued parameters. -/
theorem c10_decode_leniency_witness :
    (((∃ e, (testBus.CreateFromDescriptor
          { «Type» := "CreateListCommand", Params := Json.obj [("Ref", Json.num 42)],
            Metadata := c3Meta }).2
        = Outcome.err e)
      ↔ ∃ kv ∈ [("Ref", Json.num 42)], createListFieldCompat kv.1 kv.2 = false)
    ∧ ((∀ kv ∈ [("Ref", Json.num 42)], createListFieldKnown kv.1 = false) →
        (testBus.CreateFromDescriptor
            { «Type» := "CreateListCommand", Params := Json.obj [("Ref", Json.num 42)],
              Metadata := c3Meta }).2
          = Outcome.ok (AnyOp.createList
              { Params := { Title := "", Description := "", ParentID := none },
                Service := mockListService, OperationMeta := c3Meta,
                Logger := () })))
    ∧ (((∃ e, (testBus.CreateFromDescriptor
          { «Type» := "DisplayNodeTreeCommand",
            Params := Json.obj [("Ref", Json.num 42)], Metadata := c3Meta }).2
        = Outcome.err e)
      ↔ ∃ kv ∈ [("Ref", Json.num 42)], displayFieldCompat kv.1 kv.2 = false)
    ∧ ((∀ kv ∈ [("Ref", Json.num 42)], displayFieldKnown kv.1 = false) →
        (testBus.CreateFromDescriptor
            { «Type» := "DisplayNodeTreeCommand",
              Params := Json.obj [("Ref", Json.num 42)], Metadata := c3Meta }).2
          = Outcome.ok (AnyOp.displayNodeTree
              { Params := { RootReference := "", MaxDepth := 0 },
                Service := mockTreeService, OperationMeta := c3Meta,
                Logger := () })))
    ∧ (((∃ e, (testBus.CreateFromDescriptor
          { «Type» := "ShowNodeQuery", Params := Json.obj [("Ref", Json.num 42)],
            Metadata := c3Meta }).2
        = Outcome.err e)
      ↔ ∃ kv ∈ [("Ref", Json.num 42)], showNodeFieldCompat kv.1 kv.2 = false)
    ∧ ((∀ kv ∈ [("Ref", Json.num 42)], showNodeFieldKnown kv.1 = false) →
        (testBus.CreateFromDescriptor
            { «Type» := "ShowNodeQuery", Params := Json.obj [("Ref", Json.num 42)],
              Metadata := c3Meta }).2
          = Outcome.ok (AnyOp.showNode
              { Params := { Ref := 0 },
                Service := mockNodeService, OperationMeta := c3Meta,
                Logger := () }))) :=
  c10_decode_leniency testBus c3Meta
    mockListService mockTreeService mockNodeService
    [("Ref", Json.num 42)] rfl rfl rfl

end Commandment
